import Mathlib

/-!
Shallow embedding of the survey bot in `src/bot.py` (TripleA Travel Survey Bot).

The embedding models the survey core: the per-chat session (FSM state plus
accumulated answers), the message dispatch over the registered handlers, the
multi-select toggle widget (`toggle_multi`), contact normalization
(`normalize_contact`), and the finalize-and-persist handler (`q_contact`).

Modelling conventions:
* Telegram/aiogram transport, keyboards, and the Google-Sheets client are
  external collaborators.  An incoming text message is an `Option String`
  (`m.text` may be `None`); the outgoing `m.answer(...)` calls of one handler
  are collected as the list `sent` of message texts (keyboard markup is
  presentation and is not modelled).
* `ws.append_row(row)` may fail; the Boolean `appendFails` parameter selects
  the failing behaviour of that single external call.  A successful append is
  reported as `appended = some row`.
* A Python `IndexError` escaping a handler (out-of-range `options[i]` inside
  `map_multi`, raised while the `row` list literal is being built, hence
  before the `try: ws.append_row(row)`) is modelled as `crashed = true`.
* Python string methods are modelled over the character list: `strip` trims
  whitespace, `replace(" ", "")` removes spaces, `isdigit` is true on a
  non-empty all-digit string (restricted to the ASCII digits, which covers
  every input considered here), `lower` lowercases ASCII letters and the
  Cyrillic capital range (the only letters the compared cancel words use).
* The admin fan-out (`bot.send_message` in a `try/except Exception: pass`
  loop) is swallowed best-effort in the source and does not affect the
  session, the row, or the user-visible messages; it is not modelled.
-/

namespace Survey

/-- The two supported language tags (`RU = "ru"`, `UZ = "uz"` in the source). -/
inductive Lang
  | ru
  | uz
  deriving DecidableEq

/-- The language tag string stored in the `lang` column of a row. -/
def langStr : Lang → String
  | .ru => "ru"
  | .uz => "uz"

/-- The FSM states of `class Survey(StatesGroup)` (src/bot.py:194). -/
inductive Step
  | lang
  | company
  | city
  | years
  | team
  | leads_from
  | leads_week
  | crm
  | pay
  | booking
  | docs
  | agg_interest
  | agg_values
  | monetization
  | insight1
  | insight2
  | insight3
  | contact
  deriving DecidableEq

/-- Keys of the `OPTIONS` table (src/bot.py:150). -/
inductive OptKey
  | TEAM_SIZES
  | LEAD_CHANNELS
  | LEADS_PER_WEEK
  | CRM_USAGE
  | PAYMENT_METHODS
  | ONLINE_BOOKING
  | DOCS_DELIVERY
  | AGG_INT
  | AGG_VALUES
  | MONETIZATION
  deriving DecidableEq

/-- The `OPTIONS` table (src/bot.py:150), verbatim. -/
def OPTIONS : OptKey → Lang → List String
  | .TEAM_SIZES, .ru => ["1–3", "4–10", "11–30", "30+"]
  | .TEAM_SIZES, .uz => ["1–3", "4–10", "11–30", "30+"]
  | .LEAD_CHANNELS, .ru => ["Instagram", "Telegram", "WhatsApp", "Сайт", "Через агентов", "Другое"]
  | .LEAD_CHANNELS, .uz => ["Instagram", "Telegram", "WhatsApp", "Sayt", "Agentlar orqali", "Boshqa"]
  | .LEADS_PER_WEEK, .ru => ["1–10", "10–50", "50–100", "100+"]
  | .LEADS_PER_WEEK, .uz => ["1–10", "10–50", "50–100", "100+"]
  | .CRM_USAGE, .ru => ["CRM", "Excel", "Только мессенджеры", "Нет системы"]
  | .CRM_USAGE, .uz => ["CRM", "Excel", "Faqat messenjerlar", "Tizim yo‘q"]
  | .PAYMENT_METHODS, .ru =>
      ["Наличные", "Перевод на карту", "Click", "Payme", "Apelsin", "Через юрлицо", "Другое"]
  | .PAYMENT_METHODS, .uz =>
      ["Naqd", "Kartaga o‘tkazma", "Click", "Payme", "Apelsin", "Yuridik shaxs orqali", "Boshqa"]
  | .ONLINE_BOOKING, .ru => ["Есть, через сайт", "Только вручную", "Частично"]
  | .ONLINE_BOOKING, .uz => ["Bor, sayt orqali", "Faqat qo‘lda", "Qisman"]
  | .DOCS_DELIVERY, .ru => ["Вручную в мессенджере", "Через систему/CRM", "Другое"]
  | .DOCS_DELIVERY, .uz => ["Messenjerda qo‘lda", "Tizim/CRM orqali", "Boshqa"]
  | .AGG_INT, .ru => ["Да, очень", "Возможно", "Нет, своя система"]
  | .AGG_INT, .uz => ["Ha, juda qiziq", "Balki", "Yo‘q, o‘z tizimimiz bor"]
  | .AGG_VALUES, .ru =>
      ["Больше клиентов", "Управление турами", "Онлайн-оплата", "Отчёты и аналитика", "Отзывы клиентов"]
  | .AGG_VALUES, .uz =>
      ["Ko‘proq mijozlar", "Turlarni boshqarish", "Onlayn to‘lov", "Hisobot va analitika", "Mijozlar fikrlari"]
  | .MONETIZATION, .ru => ["Комиссия за заявку (5–10%)", "Фиксированная подписка", "Только бесплатно"]
  | .MONETIZATION, .uz => ["Ariza uchun komissiya (5–10%)", "Fiks obuna", "Faqat bepul"]

/-- `opts(name, lang)` (src/bot.py:227). -/
def opts (k : OptKey) (lang : Lang) : List String :=
  OPTIONS k lang

/-- `TEXT["choose_lang"]` (src/bot.py:83). -/
def t_choose_lang : Lang → String
  | .ru => "Выберите язык ⤵️"
  | .uz => "Tilni tanlang ⤵️"

/-- `TEXT["cancelled"]` (src/bot.py:95). -/
def t_cancelled : Lang → String
  | .ru => "Ок, опрос отменён. Можно перезапустить через /start."
  | .uz => "Yaxshi, so‘rovnoma bekor qilindi. /start bilan qayta boshlashingiz mumkin."

/-- `TEXT["q_city"]` (src/bot.py:99). -/
def t_q_city : Lang → String
  | .ru => "<b>2/17 — Город?</b>"
  | .uz => "<b>2/17 — Shahar?</b>"

/-- `TEXT["q_years"]` (src/bot.py:100). -/
def t_q_years : Lang → String
  | .ru => "<b>3/17 — Сколько лет на рынке?</b>"
  | .uz => "<b>3/17 — Bozorda nechchi yil?</b>"

/-- `TEXT["q_team"]` (src/bot.py:101). -/
def t_q_team : Lang → String
  | .ru => "<b>4/17 — Размер команды?</b>"
  | .uz => "<b>4/17 — Jamoa hajmi?</b>"

/-- `TEXT["q_leads_from_open"]` (src/bot.py:102). -/
def t_q_leads_from_open : Lang → String
  | .ru => "<b>5/17 — Откуда получаете заявки?</b>\nВыберите вариант(ы) и нажмите «Готово»."
  | .uz => "<b>5/17 — Murojaatlar qayerdan keladi?</b>\nVariant(lar)ni tanlab «Tayyor» tugmasini bosing."

/-- `TEXT["q_leads_week"]` (src/bot.py:110). -/
def t_q_leads_week : Lang → String
  | .ru => "<b>6/17 — Сколько заявок в неделю?</b>"
  | .uz => "<b>6/17 — Haftasiga nechta murojaat?</b>"

/-- `TEXT["q_crm"]` (src/bot.py:111). -/
def t_q_crm : Lang → String
  | .ru => "<b>7/17 — Чем ведёте клиентов?</b>"
  | .uz => "<b>7/17 — Mijozlarni qaysi tizimda yuritasiz?</b>"

/-- `TEXT["q_pay_open"]` (src/bot.py:112). -/
def t_q_pay_open : Lang → String
  | .ru => "<b>8/17 — Как принимаете оплаты?</b>\nВыберите и нажмите «Готово»."
  | .uz => "<b>8/17 — To‘lovlarni qanday qabul qilasiz?</b>\nTanlang va «Tayyor» bosing."

/-- `TEXT["q_booking"]` (src/bot.py:116). -/
def t_q_booking : Lang → String
  | .ru => "<b>9/17 — Онлайн-бронь есть?</b>"
  | .uz => "<b>9/17 — Onlayn bron bormi?</b>"

/-- `TEXT["q_docs"]` (src/bot.py:117). -/
def t_q_docs : Lang → String
  | .ru => "<b>10/17 — Как отправляете клиенту документы?</b>"
  | .uz => "<b>10/17 — Hujjatlarni mijozga qanday jo‘natasiz?</b>"

/-- `TEXT["q_agg_int"]` (src/bot.py:118). -/
def t_q_agg_int : Lang → String
  | .ru => "<b>11/17 — Интересен ли агрегатор в Telegram?</b>"
  | .uz => "<b>11/17 — Telegramda agregator qiziqmi?</b>"

/-- `TEXT["q_vals_open"]` (src/bot.py:119). -/
def t_q_vals_open : Lang → String
  | .ru => "<b>12/17 — Что важнее всего в агрегаторе?</b>"
  | .uz => "<b>12/17 — Agregatorda eng muhim narsa nima?</b>"

/-- `TEXT["q_monet"]` (src/bot.py:123). -/
def t_q_monet : Lang → String
  | .ru => "<b>13/17 — Монетизация: что вам ок?</b>"
  | .uz => "<b>13/17 — Monetizatsiya: nimasi maqul?</b>"

/-- `TEXT["q_ins1"]` (src/bot.py:124). -/
def t_q_ins1 : Lang → String
  | .ru => "<b>14/17 — Если бы была «волшебная кнопка» автоматизации — что бы она делала?</b>\n(свободный ответ)"
  | .uz => "<b>14/17 — «Sehrli tugma» avtomatlashtirish bo‘lsa, nima qilganini xohlar edingiz?</b>\n(ozod javob)"

/-- `TEXT["q_ins2"]` (src/bot.py:128). -/
def t_q_ins2 : Lang → String
  | .ru => "<b>15/17 — Что больше всего раздражает в работе с клиентами?</b>"
  | .uz => "<b>15/17 — Mijozlar bilan ishlashda eng hafsalani pir qiladigan narsa nima?</b>"

/-- `TEXT["q_ins3"]` (src/bot.py:132). -/
def t_q_ins3 : Lang → String
  | .ru => "<b>16/17 — Какой самый частый вопрос от клиента?</b>"
  | .uz => "<b>16/17 — Mijozlardan eng ko‘p beriladigan savol qanday?</b>"

/-- `TEXT["q_contact"]` (src/bot.py:136). -/
def t_q_contact : Lang → String
  | .ru => "<b>17/17 — Контакт для связи</b> (телефон или @username)"
  | .uz => "<b>17/17 — Aloqa uchun kontakt</b> (telefon yoki @username)"

/-- `TEXT["thanks"]` (src/bot.py:140). -/
def t_thanks : Lang → String
  | .ru => "Спасибо! Анкета сохранена. Мы свяжемся с вами для демо агрегатора 🚀"
  | .uz => "Rahmat! So‘rovnoma saqlandi. Agregator demosi uchun siz bilan bog‘lanamiz 🚀"

/-- The inline warning sent when `ws.append_row` raises (src/bot.py:538). -/
def t_save_warn : Lang → String
  | .ru => "⚠️ Ошибка сохранения в таблицу. Попробуйте позже."
  | .uz => "⚠️ Jadvalga saqlashda xatolik. Keyinroq urinib ko‘ring."

/-- The inline `/help` reply (src/bot.py:286). -/
def t_help : Lang → String
  | .ru => "Команды: /start — начать, /cancel — отменить."
  | .uz => "Buyruqlar: /start — boshlash, /cancel — bekor qilish."

/-- The relevant attributes of `m.from_user`. -/
structure TgUser where
  id : Nat
  username : Option String
  deriving DecidableEq

/-- The per-chat FSM data dictionary: one field per `update_data` key of the
source (`lang`, the scalar answers, and the three multi-select index lists). -/
structure SessionData where
  lang : Option Lang
  company_name : Option String
  city : Option String
  years : Option String
  team_size : Option String
  leads_from_idx : List Nat
  leads_per_week : Option String
  crm_usage : Option String
  pay_idx : List Nat
  online_booking : Option String
  docs_delivery : Option String
  agg_interest : Option String
  vals_idx : List Nat
  monetization : Option String
  free_insight_1 : Option String
  free_insight_2 : Option String
  free_insight_3 : Option String
  contact : Option String
  deriving DecidableEq

/-- The data dictionary right after `state.clear()`: every key absent. -/
def emptyData : SessionData where
  lang := none
  company_name := none
  city := none
  years := none
  team_size := none
  leads_from_idx := []
  leads_per_week := none
  crm_usage := none
  pay_idx := []
  online_booking := none
  docs_delivery := none
  agg_interest := none
  vals_idx := []
  monetization := none
  free_insight_1 := none
  free_insight_2 := none
  free_insight_3 := none
  contact := none

/-- A chat session: the aiogram FSM state (`none` = no active survey) and the
FSM data dictionary. -/
structure Session where
  step : Option Step
  data : SessionData
  deriving DecidableEq

/-- The session after `state.clear()`. -/
def emptySession : Session where
  step := none
  data := emptyData

/-- The observable effect of feeding one message event to the dispatcher:
the session afterwards, the texts answered to the user, the row handed to
`ws.append_row` when the append succeeded, and whether an exception escaped
the handler (out-of-range `options[i]` during row assembly). -/
structure Effect where
  sess : Session
  sent : List String
  appended : Option (List String)
  crashed : Bool
  deriving DecidableEq

/-- Effect of an update no registered handler matched: aiogram drops it. -/
def noopEffect (sess : Session) : Effect where
  sess := sess
  sent := []
  appended := none
  crashed := false

/-- `get_lang` (src/bot.py:252): `data.get("lang", RU)`. -/
def sessLang (sess : Session) : Lang :=
  sess.data.lang.getD .ru

/-- Python `str.strip()` over the character list. -/
def pyStrip (s : String) : String :=
  String.mk (((s.toList.dropWhile Char.isWhitespace).reverse.dropWhile Char.isWhitespace).reverse)

/-- Python `str.isdigit()`: non-empty and all digits (ASCII digits modelled). -/
def pyIsdigit (s : String) : Bool :=
  !s.toList.isEmpty && s.toList.all Char.isDigit

/-- Python `str.replace(" ", "")`. -/
def removeSpaces (s : String) : String :=
  String.mk (s.toList.filter fun c => c != ' ')

/-- Python `str.lower()` on ASCII letters and the Cyrillic capital range
(U+0410..U+042F and Ё), the only letters the compared cancel words contain. -/
def pyLowerChar (c : Char) : Char :=
  if 0x410 ≤ c.toNat ∧ c.toNat ≤ 0x42F then Char.ofNat (c.toNat + 0x20)
  else if c.toNat = 0x401 then Char.ofNat 0x451
  else c.toLower

/-- Python `str.lower()` over the character list. -/
def pyLower (s : String) : String :=
  String.mk (s.toList.map pyLowerChar)

/-- `normalize_contact` (src/bot.py:488). -/
def normalize_contact (txt : String) : String :=
  let t := pyStrip txt
  if t.toList.head? == some '+' && pyIsdigit (removeSpaces (String.mk (t.toList.drop 1))) then t
  else if t.toList.head? == some '@' && decide (1 < t.toList.length) then t
  else
    let digits := String.mk (t.toList.filter fun c => c.isDigit || c == '+')
    if digits.toList.isEmpty then t else digits

/-- The state-updating branch of `toggle_multi` (src/bot.py:335): on
`"<prefix>:toggle:<idx>"`, remove `idx` from the picked list if present
(first occurrence, like `list.remove`), otherwise append it.  No bounds
check against the option list is performed. -/
def toggle_multi (picked : List Nat) (idx : Nat) : List Nat :=
  if idx ∈ picked then picked.erase idx else picked ++ [idx]

/-- Python `sorted(set(idxs))`: the distinct indices in ascending order
(insertion sort over the deduplicated list, which is kernel-reducible). -/
def sortedSet (idxs : List Nat) : List Nat :=
  List.insertionSort (· ≤ ·) idxs.dedup

/-- Evaluation of the generator `(options[i] for i in keys)`: the labels at
the given indices, or `none` when some index is out of range (`IndexError`). -/
def lookupAll (options : List String) : List Nat → Option (List String)
  | [] => some []
  | i :: is =>
      match options.get? i, lookupAll options is with
      | some s, some rest => some (s :: rest)
      | _, _ => none

/-- `map_multi` (src/bot.py:507): `", ".join(options[i] for i in
sorted(set(idxs))) if idxs else ""`.  `none` models the `IndexError` raised
by `options[i]` when some index is out of range. -/
def map_multi (idxs : List Nat) (options : List String) : Option String :=
  if idxs.isEmpty then some ""
  else (lookupAll options (sortedSet idxs)).map (String.intercalate ", ")

/-- The `row` list literal of `q_contact` (src/bot.py:511), assembled from the
session data; `none` models an `IndexError` escaping from one of the three
`map_multi` calls while the literal is being evaluated. -/
def buildRow (ts : String) (user : TgUser) (lang : Lang) (d : SessionData) :
    Option (List String) :=
  match map_multi d.leads_from_idx (opts .LEAD_CHANNELS lang),
        map_multi d.pay_idx (opts .PAYMENT_METHODS lang),
        map_multi d.vals_idx (opts .AGG_VALUES lang) with
  | some leads, some pays, some vals =>
      some [ts, toString user.id, user.username.getD "", langStr lang,
            d.company_name.getD "", d.city.getD "", d.years.getD "", d.team_size.getD "",
            leads, d.leads_per_week.getD "", d.crm_usage.getD "",
            pays, d.online_booking.getD "", d.docs_delivery.getD "",
            d.agg_interest.getD "", vals, d.monetization.getD "",
            d.free_insight_1.getD "", d.free_insight_2.getD "", d.free_insight_3.getD "",
            d.contact.getD ""]
  | _, _, _ => none

/-- `state.update_data(contact=contact)` (src/bot.py:501): the session data
with the `contact` key set. -/
def setContact (d : SessionData) (c : String) : SessionData where
  lang := d.lang
  company_name := d.company_name
  city := d.city
  years := d.years
  team_size := d.team_size
  leads_from_idx := d.leads_from_idx
  leads_per_week := d.leads_per_week
  crm_usage := d.crm_usage
  pay_idx := d.pay_idx
  online_booking := d.online_booking
  docs_delivery := d.docs_delivery
  agg_interest := d.agg_interest
  vals_idx := d.vals_idx
  monetization := d.monetization
  free_insight_1 := d.free_insight_1
  free_insight_2 := d.free_insight_2
  free_insight_3 := d.free_insight_3
  contact := some c

/-- `q_contact` (src/bot.py:497): normalize and store the contact, assemble
the row, attempt the single `ws.append_row`; on failure answer the localized
warning and keep the session, on success answer the thank-you text and clear
the session. -/
def q_contact (sess : Session) (text : Option String) (user : TgUser) (ts : String)
    (appendFails : Bool) : Effect :=
  let lang := sessLang sess
  let contact := normalize_contact (text.getD "")
  let d := setContact sess.data contact
  let sess1 : Session := { step := sess.step, data := d }
  match buildRow ts user lang d with
  | none => { sess := sess1, sent := [], appended := none, crashed := true }
  | some row =>
      if appendFails then
        { sess := sess1, sent := [t_save_warn lang], appended := none, crashed := false }
      else
        { sess := emptySession, sent := [t_thanks lang], appended := some row, crashed := false }

/-- First whitespace-separated token of a message text, for command matching. -/
def firstToken (s : String) : String :=
  String.mk (s.toList.takeWhile fun c => c != ' ')

/-- Matching of aiogram `Command(c)` / `CommandStart()` filters: the message
text's first token is `"/" ++ c`. -/
def isCmd (text : Option String) (c : String) : Bool :=
  match text with
  | some s => firstToken s == "/" ++ c
  | none => false

/-- The guard `if not m.text or m.text.lower() in {"отменить", "bekor qilish"}`
shared by every free-text handler (e.g. src/bot.py:293). -/
def isCancelText (text : Option String) : Bool :=
  match text with
  | none => true
  | some s => s == "" || pyLower s == "отменить" || pyLower s == "bekor qilish"

/-- Body shared by the free-text handlers (`q_company`, `q_city`, `q_years`,
`q_ins1`..`q_ins3`): cancel on absent text or a cancel word, otherwise store
the stripped text, answer the next prompt and advance. -/
def freeStep (sess : Session) (text : Option String)
    (store : SessionData → String → SessionData) (nextPrompt : Lang → String)
    (next : Step) : Effect :=
  let lang := sessLang sess
  if isCancelText text then
    { sess := emptySession, sent := [t_cancelled lang], appended := none, crashed := false }
  else
    { sess := { step := some next, data := store sess.data (pyStrip (text.getD "")) },
      sent := [nextPrompt lang], appended := none, crashed := false }

/-- Body shared by the single-choice handlers together with their aiogram
filter `F.text.func(lambda v: v in OPTIONS[k][RU] + OPTIONS[k][UZ])`: when
the text is one of the labels (of either language), store it verbatim,
answer the next prompt and advance; otherwise no handler matches and the
update is dropped. -/
def choiceStep (sess : Session) (text : Option String) (labels : List String)
    (store : SessionData → String → SessionData) (nextPrompt : Lang → String)
    (next : Step) : Effect :=
  match text with
  | some s =>
      if s ∈ labels then
        { sess := { step := some next, data := store sess.data s },
          sent := [nextPrompt (sessLang sess)], appended := none, crashed := false }
      else noopEffect sess
  | none => noopEffect sess

/-- `start` (src/bot.py:257): clear the session, show the bilingual language
prompt, enter `Survey.lang`. -/
def start : Effect where
  sess := { step := some .lang, data := emptyData }
  sent := [t_choose_lang .ru ++ "\n" ++ t_choose_lang .uz]
  appended := none
  crashed := false

/-- `cancel` (src/bot.py:277): read the language, clear the session, confirm. -/
def cancel (sess : Session) : Effect where
  sess := emptySession
  sent := [t_cancelled (sessLang sess)]
  appended := none
  crashed := false

/-- `help_cmd` (src/bot.py:283). -/
def help_cmd (sess : Session) : Effect where
  sess := sess
  sent := [t_help (sessLang sess)]
  appended := none
  crashed := false

/-- `q_company` (src/bot.py:290). -/
def q_company (sess : Session) (text : Option String) : Effect :=
  freeStep sess text (fun d v => { d with company_name := some v }) t_q_city .city

/-- `q_city` (src/bot.py:299). -/
def q_city (sess : Session) (text : Option String) : Effect :=
  freeStep sess text (fun d v => { d with city := some v }) t_q_years .years

/-- `q_years` (src/bot.py:308). -/
def q_years (sess : Session) (text : Option String) : Effect :=
  freeStep sess text (fun d v => { d with years := some v }) t_q_team .team

/-- `q_team` with its filter (src/bot.py:317). -/
def q_team (sess : Session) (text : Option String) : Effect :=
  choiceStep sess text (opts .TEAM_SIZES .ru ++ opts .TEAM_SIZES .uz)
    (fun d v => { d with team_size := some v }) t_q_leads_from_open .leads_from

/-- `q_leads_week` with its filter (src/bot.py:373). -/
def q_leads_week (sess : Session) (text : Option String) : Effect :=
  choiceStep sess text (opts .LEADS_PER_WEEK .ru ++ opts .LEADS_PER_WEEK .uz)
    (fun d v => { d with leads_per_week := some v }) t_q_crm .crm

/-- `q_crm` with its filter (src/bot.py:380). -/
def q_crm (sess : Session) (text : Option String) : Effect :=
  choiceStep sess text (opts .CRM_USAGE .ru ++ opts .CRM_USAGE .uz)
    (fun d v => { d with crm_usage := some v }) t_q_pay_open .pay

/-- `q_booking` with its filter (src/bot.py:410). -/
def q_booking (sess : Session) (text : Option String) : Effect :=
  choiceStep sess text (opts .ONLINE_BOOKING .ru ++ opts .ONLINE_BOOKING .uz)
    (fun d v => { d with online_booking := some v }) t_q_docs .docs

/-- `q_docs` with its filter (src/bot.py:417). -/
def q_docs (sess : Session) (text : Option String) : Effect :=
  choiceStep sess text (opts .DOCS_DELIVERY .ru ++ opts .DOCS_DELIVERY .uz)
    (fun d v => { d with docs_delivery := some v }) t_q_agg_int .agg_interest

/-- `q_agg_int` with its filter (src/bot.py:424). -/
def q_agg_int (sess : Session) (text : Option String) : Effect :=
  choiceStep sess text (opts .AGG_INT .ru ++ opts .AGG_INT .uz)
    (fun d v => { d with agg_interest := some v }) t_q_vals_open .agg_values

/-- `q_monet` with its filter (src/bot.py:454). -/
def q_monet (sess : Session) (text : Option String) : Effect :=
  choiceStep sess text (opts .MONETIZATION .ru ++ opts .MONETIZATION .uz)
    (fun d v => { d with monetization := some v }) t_q_ins1 .insight1

/-- `q_ins1` (src/bot.py:461). -/
def q_ins1 (sess : Session) (text : Option String) : Effect :=
  freeStep sess text (fun d v => { d with free_insight_1 := some v }) t_q_ins2 .insight2

/-- `q_ins2` (src/bot.py:470). -/
def q_ins2 (sess : Session) (text : Option String) : Effect :=
  freeStep sess text (fun d v => { d with free_insight_2 := some v }) t_q_ins3 .insight3

/-- `q_ins3` (src/bot.py:479). -/
def q_ins3 (sess : Session) (text : Option String) : Effect :=
  freeStep sess text (fun d v => { d with free_insight_3 := some v }) t_q_contact .contact

/-- Message dispatch over the registered handlers in registration order
(src/bot.py:257 onwards): `start`, `cancel`, `help` match in any state; then
the unique handler whose state filter matches the current step fires; in
`Survey.lang`, `Survey.leads_from`, `Survey.pay`, `Survey.agg_values` (and
with no active session) no message handler is registered, and a text that
fails a single-choice filter matches no handler either — aiogram then drops
the update without any reply or state change. -/
def handleMessage (sess : Session) (text : Option String) (user : TgUser) (ts : String)
    (appendFails : Bool) : Effect :=
  if isCmd text "start" then start
  else if isCmd text "cancel" then cancel sess
  else if isCmd text "help" then help_cmd sess
  else
    match sess.step with
    | some .company => q_company sess text
    | some .city => q_city sess text
    | some .years => q_years sess text
    | some .team => q_team sess text
    | some .leads_week => q_leads_week sess text
    | some .crm => q_crm sess text
    | some .booking => q_booking sess text
    | some .docs => q_docs sess text
    | some .agg_interest => q_agg_int sess text
    | some .monetization => q_monet sess text
    | some .insight1 => q_ins1 sess text
    | some .insight2 => q_ins2 sess text
    | some .insight3 => q_ins3 sess text
    | some .contact => q_contact sess text user ts appendFails
    | some .lang => noopEffect sess
    | some .leads_from => noopEffect sess
    | some .pay => noopEffect sess
    | some .agg_values => noopEffect sess
    | none => noopEffect sess

/-- Observer: the accepted label list (the union of both languages, exactly
as in the handler filters), the stored answer field, and the successor step
of each single-choice step. -/
def choiceInfo : Step → Option (List String × (SessionData → Option String) × Step)
  | .team => some (opts .TEAM_SIZES .ru ++ opts .TEAM_SIZES .uz, fun d => d.team_size, .leads_from)
  | .leads_week => some (opts .LEADS_PER_WEEK .ru ++ opts .LEADS_PER_WEEK .uz,
      fun d => d.leads_per_week, .crm)
  | .crm => some (opts .CRM_USAGE .ru ++ opts .CRM_USAGE .uz, fun d => d.crm_usage, .pay)
  | .booking => some (opts .ONLINE_BOOKING .ru ++ opts .ONLINE_BOOKING .uz,
      fun d => d.online_booking, .docs)
  | .docs => some (opts .DOCS_DELIVERY .ru ++ opts .DOCS_DELIVERY .uz,
      fun d => d.docs_delivery, .agg_interest)
  | .agg_interest => some (opts .AGG_INT .ru ++ opts .AGG_INT .uz,
      fun d => d.agg_interest, .agg_values)
  | .monetization => some (opts .MONETIZATION .ru ++ opts .MONETIZATION .uz,
      fun d => d.monetization, .insight1)
  | _ => none

/-- Observer: the stored answer field and the successor step of each
free-text step. -/
def freeInfo : Step → Option ((SessionData → Option String) × Step)
  | .company => some (fun d => d.company_name, .city)
  | .city => some (fun d => d.city, .years)
  | .years => some (fun d => d.years, .team)
  | .insight1 => some (fun d => d.free_insight_1, .insight2)
  | .insight2 => some (fun d => d.free_insight_2, .insight3)
  | .insight3 => some (fun d => d.free_insight_3, .contact)
  | _ => none

/-- All stored multi-select indices are in range for the option lists of the
given language (the condition under which row assembly cannot raise). -/
def validIdx (lang : Lang) (d : SessionData) : Prop :=
  (∀ i ∈ d.leads_from_idx, i < (opts .LEAD_CHANNELS lang).length) ∧
  (∀ i ∈ d.pay_idx, i < (opts .PAYMENT_METHODS lang).length) ∧
  (∀ i ∈ d.vals_idx, i < (opts .AGG_VALUES lang).length)

/-- Every answer key and the language coincide; only the `contact` key may
differ.  Used to state that a failed persistence keeps the accumulated
answers. -/
def sameAnswers (d d' : SessionData) : Prop :=
  d'.lang = d.lang ∧ d'.company_name = d.company_name ∧ d'.city = d.city ∧
  d'.years = d.years ∧ d'.team_size = d.team_size ∧
  d'.leads_from_idx = d.leads_from_idx ∧ d'.leads_per_week = d.leads_per_week ∧
  d'.crm_usage = d.crm_usage ∧ d'.pay_idx = d.pay_idx ∧
  d'.online_booking = d.online_booking ∧ d'.docs_delivery = d.docs_delivery ∧
  d'.agg_interest = d.agg_interest ∧ d'.vals_idx = d.vals_idx ∧
  d'.monetization = d.monetization ∧ d'.free_insight_1 = d.free_insight_1 ∧
  d'.free_insight_2 = d.free_insight_2 ∧ d'.free_insight_3 = d.free_insight_3


/-- Concrete fixture: a fully answered session-data record (language `ru`). -/
def cData : SessionData where
  lang := some .ru
  company_name := some "Рога и копыта"
  city := some "Ташкент"
  years := some "5"
  team_size := some "4–10"
  leads_from_idx := [2, 0]
  leads_per_week := some "10–50"
  crm_usage := some "Excel"
  pay_idx := [1]
  online_booking := some "Частично"
  docs_delivery := some "Другое"
  agg_interest := some "Возможно"
  vals_idx := []
  monetization := some "Только бесплатно"
  free_insight_1 := some "автоматизация"
  free_insight_2 := some "рутина"
  free_insight_3 := some "цена"
  contact := none

/-- Concrete fixture: the session above, waiting at the final contact step. -/
def cSess : Session where
  step := some .contact
  data := cData

/-- Concrete fixture: a user with a platform handle. -/
def cUser : TgUser where
  id := 7
  username := some "agency_uz"

/-- Concrete fixture: a session-data record early in the survey. -/
def midData : SessionData :=
  { emptyData with lang := some .ru, company_name := some "Рога и копыта",
                   city := some "Ташкент", years := some "5" }

/-!  Supporting lemmas about `sortedSet`, `lookupAll`, `map_multi`, `buildRow`
and `q_contact`, shared by the claim theorems below. -/

theorem lookupAll_eq (options : List String) (keys : List Nat)
    (h : ∀ i ∈ keys, i < options.length) :
    lookupAll options keys = some (keys.map fun i => options.getD i "") := by
  induction keys with
  | nil => rfl
  | cons i is ih =>
      have hi : i < options.length := h i (List.mem_cons_self i is)
      have hs : options.get? i = some (options.get ⟨i, hi⟩) := List.get?_eq_get hi
      have hd : options.getD i "" = options.get ⟨i, hi⟩ := by
        rw [List.getD_eq_getElem?_getD, ← List.get?_eq_getElem?, hs]
        rfl
      simp only [lookupAll, hs, ih fun j hj => h j (List.mem_cons_of_mem i hj),
        List.map_cons, hd]

theorem sortedSet_sorted_le (idxs : List Nat) : List.Sorted (· ≤ ·) (sortedSet idxs) :=
  List.sorted_insertionSort _ _

theorem sortedSet_nodup (idxs : List Nat) : (sortedSet idxs).Nodup :=
  (List.perm_insertionSort _ _).nodup_iff.mpr (List.nodup_dedup idxs)

theorem sortedSet_mem (idxs : List Nat) (i : Nat) : i ∈ sortedSet idxs ↔ i ∈ idxs :=
  (List.perm_insertionSort _ _).mem_iff.trans List.mem_dedup

theorem sortedSet_sorted (idxs : List Nat) : List.Sorted (· < ·) (sortedSet idxs) :=
  (sortedSet_sorted_le idxs).lt_of_le (sortedSet_nodup idxs)

theorem sortedSet_congr (idxs idxs' : List Nat) (h : idxs.toFinset = idxs'.toFinset) :
    sortedSet idxs = sortedSet idxs' :=
  List.eq_of_perm_of_sorted
    (((List.perm_insertionSort _ _).trans (List.toFinset_eq_iff_perm_dedup.mp h)).trans
      (List.perm_insertionSort _ _).symm)
    (sortedSet_sorted_le idxs) (sortedSet_sorted_le idxs')

theorem map_multi_eq (idxs : List Nat) (options : List String)
    (h : ∀ i ∈ idxs, i < options.length) :
    map_multi idxs options =
      some (String.intercalate ", " ((sortedSet idxs).map fun i => options.getD i "")) := by
  unfold map_multi
  by_cases he : idxs = []
  · subst he
    rfl
  · have he' : idxs.isEmpty = false := by
      simp [List.isEmpty_iff, he]
    rw [he']
    rw [lookupAll_eq options (sortedSet idxs) fun i hi => h i ((sortedSet_mem idxs i).mp hi)]
    rfl

theorem buildRow_eq (ts : String) (user : TgUser) (lang : Lang) (d : SessionData)
    (h : validIdx lang d) :
    buildRow ts user lang d =
      some [ts, toString user.id, user.username.getD "", langStr lang,
            d.company_name.getD "", d.city.getD "", d.years.getD "", d.team_size.getD "",
            String.intercalate ", "
              ((sortedSet d.leads_from_idx).map fun i => (opts .LEAD_CHANNELS lang).getD i ""),
            d.leads_per_week.getD "", d.crm_usage.getD "",
            String.intercalate ", "
              ((sortedSet d.pay_idx).map fun i => (opts .PAYMENT_METHODS lang).getD i ""),
            d.online_booking.getD "", d.docs_delivery.getD "",
            d.agg_interest.getD "",
            String.intercalate ", "
              ((sortedSet d.vals_idx).map fun i => (opts .AGG_VALUES lang).getD i ""),
            d.monetization.getD "",
            d.free_insight_1.getD "", d.free_insight_2.getD "", d.free_insight_3.getD "",
            d.contact.getD ""] := by
  obtain ⟨h1, h2, h3⟩ := h
  unfold buildRow
  rw [map_multi_eq _ _ h1, map_multi_eq _ _ h2, map_multi_eq _ _ h3]

theorem q_contact_cases (sess : Session) (text : Option String) (user : TgUser)
    (ts : String) (fail : Bool) (hv : validIdx (sessLang sess) sess.data) :
    ∃ row, buildRow ts user (sessLang sess)
        (setContact sess.data (normalize_contact (text.getD ""))) = some row ∧
      q_contact sess text user ts fail =
        if fail then
          Effect.mk
            (Session.mk sess.step (setContact sess.data (normalize_contact (text.getD ""))))
            [t_save_warn (sessLang sess)] none false
        else
          Effect.mk emptySession [t_thanks (sessLang sess)] (some row) false := by
  obtain ⟨h1, h2, h3⟩ := hv
  have hb := buildRow_eq ts user (sessLang sess)
    (setContact sess.data (normalize_contact (text.getD ""))) ⟨h1, h2, h3⟩
  refine ⟨_, hb, ?_⟩
  simp only [q_contact]
  rw [hb]

/-- C3 counterexample: `normalize_contact` does NOT map `"+998 90 123 45 67"`
to `"+998901234567"` — the international-prefix branch keeps the input
unchanged, interior spaces included. -/
theorem normalize_contact_spaces_cx :
    normalize_contact "+998 90 123 45 67" = "+998 90 123 45 67" ∧
    normalize_contact "+998 90 123 45 67" ≠ "+998901234567" := by
  decide

/-- C3 (amended): the prefix branch keeps `"+998 90 123 45 67"` unchanged
(spaces included), `"@agency_uz"` is unchanged, `"no digits here"` is
returned as the original string, and the fallback branch strips to the
digit and `+` characters (not digits only). -/
theorem normalize_contact_cases :
    normalize_contact "+998 90 123 45 67" = "+998 90 123 45 67" ∧
    normalize_contact "@agency_uz" = "@agency_uz" ∧
    normalize_contact "no digits here" = "no digits here" ∧
    normalize_contact "tel: 90-123" = "90123" ∧
    normalize_contact "call me: +99890" = "+99890" := by
  decide

/-- C6: on a duplicate-free stored selection, toggling the same index twice
leaves the selection set unchanged, one toggle flips exactly the membership
of that index, and no other index's membership changes. -/
theorem toggle_multi_involutive (picked : List Nat) (idx : Nat) (h : picked.Nodup) :
    (∀ j, j ∈ toggle_multi (toggle_multi picked idx) idx ↔ j ∈ picked) ∧
    (idx ∈ toggle_multi picked idx ↔ idx ∉ picked) ∧
    (∀ j, j ≠ idx → (j ∈ toggle_multi picked idx ↔ j ∈ picked)) := by
  by_cases hm : idx ∈ picked
  · have hni : idx ∉ picked.erase idx := by
      rw [h.mem_erase_iff]
      simp
    have e1 : toggle_multi picked idx = picked.erase idx := by
      simp [toggle_multi, hm]
    have e2 : toggle_multi (picked.erase idx) idx = picked.erase idx ++ [idx] := by
      simp [toggle_multi, hni]
    rw [e1, e2]
    refine ⟨fun j => ?_, ?_, fun j hj => ?_⟩
    · rw [List.mem_append, h.mem_erase_iff]
      simp only [List.mem_singleton]
      constructor
      · rintro (⟨_, hmem⟩ | rfl)
        · exact hmem
        · exact hm
      · intro hmem
        by_cases hje : j = idx
        · exact Or.inr hje
        · exact Or.inl ⟨hje, hmem⟩
    · simp [hni, hm]
    · rw [h.mem_erase_iff]
      simp [hj]
  · have e1 : toggle_multi picked idx = picked ++ [idx] := by
      simp [toggle_multi, hm]
    have hmem2 : idx ∈ picked ++ [idx] := by simp
    have e2 : toggle_multi (picked ++ [idx]) idx = picked := by
      simp only [toggle_multi, if_pos hmem2]
      rw [List.erase_append_right _ hm, List.erase_cons_head, List.append_nil]
    rw [e1, e2]
    refine ⟨fun j => Iff.rfl, ?_, fun j hj => ?_⟩
    · simp [hm]
    · simp [hj]

/-- C6 witness: instantiation at the duplicate-free selection `[0, 2]` and
index `2`. -/
theorem toggle_multi_involutive_witness :
    ([0, 2] : List Nat).Nodup ∧
    ((∀ j, j ∈ toggle_multi (toggle_multi [0, 2] 2) 2 ↔ j ∈ [0, 2]) ∧
     (2 ∈ toggle_multi [0, 2] 2 ↔ 2 ∉ ([0, 2] : List Nat)) ∧
     (∀ j, j ≠ 2 → (j ∈ toggle_multi [0, 2] 2 ↔ j ∈ [0, 2]))) :=
  ⟨by decide, toggle_multi_involutive [0, 2] 2 (by decide)⟩

/-- C7: finalize-time resolution of a multi-choice answer: an empty stored
selection yields the empty string; the result depends only on the set of
stored indices (toggle order is irrelevant); and the result is the labels at
the distinct stored indices, in ascending index order, joined by `", "`. -/
theorem map_multi_resolution (idxs : List Nat) (options : List String)
    (h : ∀ i ∈ idxs, i < options.length) :
    map_multi [] options = some "" ∧
    (∀ idxs' : List Nat, idxs'.toFinset = idxs.toFinset →
      map_multi idxs' options = map_multi idxs options) ∧
    ∃ keys : List Nat, List.Sorted (· < ·) keys ∧ keys.Nodup ∧
      (∀ i, i ∈ keys ↔ i ∈ idxs) ∧
      map_multi idxs options =
        some (String.intercalate ", " (keys.map fun i => options.getD i "")) := by
  refine ⟨rfl, ?_, sortedSet idxs, sortedSet_sorted idxs, sortedSet_nodup idxs,
    fun i => sortedSet_mem idxs i, map_multi_eq idxs options h⟩
  intro idxs' he
  have h' : ∀ i ∈ idxs', i < options.length := by
    intro i hi
    apply h
    have hmem : i ∈ idxs'.toFinset := List.mem_toFinset.mpr hi
    rw [he] at hmem
    exact List.mem_toFinset.mp hmem
  rw [map_multi_eq idxs' options h', map_multi_eq idxs options h,
    sortedSet_congr idxs' idxs he]

/-- C7 witness: instantiation at indices `[2, 0]` over the five localized
labels of the aggregator-values step, matching the spec's worked example. -/
theorem map_multi_resolution_witness :
    (∀ i ∈ ([2, 0] : List Nat), i < (opts .AGG_VALUES .ru).length) ∧
    (map_multi [] (opts .AGG_VALUES .ru) = some "" ∧
     (∀ idxs' : List Nat, idxs'.toFinset = ([2, 0] : List Nat).toFinset →
       map_multi idxs' (opts .AGG_VALUES .ru) = map_multi [2, 0] (opts .AGG_VALUES .ru)) ∧
     ∃ keys : List Nat, List.Sorted (· < ·) keys ∧ keys.Nodup ∧
       (∀ i, i ∈ keys ↔ i ∈ ([2, 0] : List Nat)) ∧
       map_multi [2, 0] (opts .AGG_VALUES .ru) =
         some (String.intercalate ", " (keys.map fun i => (opts .AGG_VALUES .ru).getD i ""))) :=
  ⟨by decide, map_multi_resolution [2, 0] (opts .AGG_VALUES .ru) (by decide)⟩

/-- C10: `toggle_multi` stores an index with no bounds check (index `9` is
stored although the lead-channels list has 6 entries), and at finalize the
resolution `options[i]` of such an index is out of range, so record assembly
raises and no append is attempted even though the append itself would have
succeeded. -/
theorem toggle_unchecked_index_breaks_finalize :
    toggle_multi [] 9 = [9] ∧
    (opts .LEAD_CHANNELS .ru).length ≤ 9 ∧
    map_multi (toggle_multi [] 9) (opts .LEAD_CHANNELS .ru) = none ∧
    (q_contact (Session.mk (some .contact) { cData with leads_from_idx := toggle_multi [] 9 })
      (some "@x") cUser "2026-10-12 00:00:00" false).crashed = true ∧
    (q_contact (Session.mk (some .contact) { cData with leads_from_idx := toggle_multi [] 9 })
      (some "@x") cUser "2026-10-12 00:00:00" false).appended = none ∧
    (q_contact (Session.mk (some .contact) { cData with leads_from_idx := toggle_multi [] 9 })
      (some "@x") cUser "2026-10-12 00:00:00" false).sent = [] := by
  decide

/-- C1: at the final contact step, a failing append leaves the step and all
accumulated answers in place (only the contact key is written) and sends the
localized warning with nothing appended; a structurally identical retry then
succeeds, appends a row, clears the session and sends the thank-you text in
the session's language — as does a directly succeeding append. -/
theorem q_contact_failure_retry (sess : Session) (text : Option String) (user : TgUser)
    (ts ts' : String) (hstep : sess.step = some .contact)
    (hv : validIdx (sessLang sess) sess.data) :
    (q_contact sess text user ts true).sess.step = some .contact ∧
    sameAnswers sess.data (q_contact sess text user ts true).sess.data ∧
    (q_contact sess text user ts true).sent = [t_save_warn (sessLang sess)] ∧
    (q_contact sess text user ts true).appended = none ∧
    (q_contact sess text user ts true).crashed = false ∧
    (q_contact (q_contact sess text user ts true).sess text user ts' false).appended.isSome ∧
    (q_contact (q_contact sess text user ts true).sess text user ts' false).sess
      = emptySession ∧
    (q_contact (q_contact sess text user ts true).sess text user ts' false).sent
      = [t_thanks (sessLang sess)] ∧
    (q_contact sess text user ts false).appended.isSome ∧
    (q_contact sess text user ts false).sess = emptySession ∧
    (q_contact sess text user ts false).sent = [t_thanks (sessLang sess)] := by
  obtain ⟨rowF, hrowF, heqF⟩ := q_contact_cases sess text user ts true hv
  rw [if_pos rfl] at heqF
  obtain ⟨rowS, hrowS, heqS⟩ := q_contact_cases sess text user ts false hv
  rw [if_neg Bool.false_ne_true] at heqS
  have hv1 : validIdx
      (sessLang (Session.mk sess.step (setContact sess.data (normalize_contact (text.getD "")))))
      (Session.mk sess.step (setContact sess.data (normalize_contact (text.getD "")))).data := hv
  obtain ⟨rowR, hrowR, heqR⟩ := q_contact_cases
    (Session.mk sess.step (setContact sess.data (normalize_contact (text.getD ""))))
    text user ts' false hv1
  rw [if_neg Bool.false_ne_true] at heqR
  have hl : sessLang
      (Session.mk sess.step (setContact sess.data (normalize_contact (text.getD ""))))
      = sessLang sess := rfl
  rw [hl] at heqR
  rw [heqF]
  dsimp only
  rw [heqR, heqS, hstep]
  dsimp only
  refine ⟨rfl, ?_, rfl, rfl, rfl, rfl, rfl, rfl, rfl, rfl, rfl⟩
  simp [sameAnswers, setContact]

/-- C1 witness: instantiation at the fully answered fixture session with the
phone-number text; the hypotheses are discharged by computation. -/
theorem q_contact_failure_retry_witness :
    cSess.step = some Step.contact ∧ validIdx (sessLang cSess) cSess.data ∧
    ((q_contact cSess (some "+998 90 123 45 67") cUser "t1" true).sess.step
        = some Step.contact ∧
     sameAnswers cSess.data
        (q_contact cSess (some "+998 90 123 45 67") cUser "t1" true).sess.data ∧
     (q_contact cSess (some "+998 90 123 45 67") cUser "t1" true).sent
        = [t_save_warn (sessLang cSess)] ∧
     (q_contact cSess (some "+998 90 123 45 67") cUser "t1" true).appended = none ∧
     (q_contact cSess (some "+998 90 123 45 67") cUser "t1" true).crashed = false ∧
     (q_contact (q_contact cSess (some "+998 90 123 45 67") cUser "t1" true).sess
        (some "+998 90 123 45 67") cUser "t2" false).appended.isSome ∧
     (q_contact (q_contact cSess (some "+998 90 123 45 67") cUser "t1" true).sess
        (some "+998 90 123 45 67") cUser "t2" false).sess = emptySession ∧
     (q_contact (q_contact cSess (some "+998 90 123 45 67") cUser "t1" true).sess
        (some "+998 90 123 45 67") cUser "t2" false).sent = [t_thanks (sessLang cSess)] ∧
     (q_contact cSess (some "+998 90 123 45 67") cUser "t1" false).appended.isSome ∧
     (q_contact cSess (some "+998 90 123 45 67") cUser "t1" false).sess = emptySession ∧
     (q_contact cSess (some "+998 90 123 45 67") cUser "t1" false).sent
        = [t_thanks (sessLang cSess)]) :=
  ⟨rfl, ⟨by decide, by decide, by decide⟩,
    q_contact_failure_retry cSess (some "+998 90 123 45 67") cUser "t1" "t2" rfl
      ⟨by decide, by decide, by decide⟩⟩

/-- C9 counterexample: with no contact text and the platform handle
`agency_uz` available, the persisted record's contact column is the empty
string, not the handle — there is no username fallback for the contact
value. -/
theorem contact_no_username_fallback_cx :
    cUser.username = some "agency_uz" ∧
    (q_contact cSess none cUser "2026-10-12 00:00:00" false).appended.isSome ∧
    ((q_contact cSess none cUser "2026-10-12 00:00:00" false).appended.getD []).get? 20
      = some "" ∧
    ("" : String) ≠ "@agency_uz" ∧ ("" : String) ≠ "agency_uz" := by
  decide

/-- C9 (amended): when the user supplies no contact text, the persisted
contact column is the empty string (`normalize_contact` of the empty
string); the platform handle appears only in the separate username column
of the record and is never used as the contact value. -/
theorem contact_empty_when_no_text (sess : Session) (user : TgUser) (ts : String)
    (_hstep : sess.step = some .contact) (hv : validIdx (sessLang sess) sess.data) :
    (q_contact sess none user ts false).sess = emptySession ∧
    ∃ row, (q_contact sess none user ts false).appended = some row ∧
      row.get? 20 = some "" ∧ row.get? 2 = some (user.username.getD "") := by
  obtain ⟨h1, h2, h3⟩ := hv
  have hb := buildRow_eq ts user (sessLang sess)
    (setContact sess.data (normalize_contact (Option.getD none ""))) ⟨h1, h2, h3⟩
  obtain ⟨row, hrow, heq⟩ := q_contact_cases sess none user ts false ⟨h1, h2, h3⟩
  rw [if_neg Bool.false_ne_true] at heq
  rw [heq]
  dsimp only
  rw [hrow] at hb
  injection hb with hb'
  subst hb'
  exact ⟨rfl, _, rfl, rfl, rfl⟩

/-- C9 amended witness: instantiation at the fixture session and user. -/
theorem contact_empty_when_no_text_witness :
    cSess.step = some Step.contact ∧ validIdx (sessLang cSess) cSess.data ∧
    ((q_contact cSess none cUser "t1" false).sess = emptySession ∧
     ∃ row, (q_contact cSess none cUser "t1" false).appended = some row ∧
       row.get? 20 = some "" ∧ row.get? 2 = some (cUser.username.getD "")) :=
  ⟨rfl, ⟨by decide, by decide, by decide⟩,
    contact_empty_when_no_text cSess cUser "t1" rfl ⟨by decide, by decide, by decide⟩⟩

/-- C8: `/cancel` from any active step clears the session (step and answers),
sends the cancellation confirmation in the session's language, appends
nothing, and takes precedence over the step's own input handling; a
subsequent `/start` begins again at the language-selection step with no
residual answers. -/
theorem cancel_clears_then_start_fresh (sess : Session) (user : TgUser) (ts : String)
    (fail : Bool) (_hstep : sess.step.isSome) :
    (handleMessage sess (some "/cancel") user ts fail).sess = emptySession ∧
    (handleMessage sess (some "/cancel") user ts fail).sent = [t_cancelled (sessLang sess)] ∧
    (handleMessage sess (some "/cancel") user ts fail).appended = none ∧
    (handleMessage (handleMessage sess (some "/cancel") user ts fail).sess (some "/start")
        user ts fail).sess = Session.mk (some .lang) emptyData ∧
    (handleMessage (handleMessage sess (some "/cancel") user ts fail).sess (some "/start")
        user ts fail).sess.data = emptyData := by
  have h1 : isCmd (some "/cancel") "start" = false := by decide
  have h2 : isCmd (some "/cancel") "cancel" = true := by decide
  have h3 : isCmd (some "/start") "start" = true := by decide
  simp [handleMessage, h1, h2, h3, cancel, start]

/-- C8 witness: instantiation at a mid-survey session at the team step. -/
theorem cancel_clears_then_start_fresh_witness :
    (Session.mk (some Step.team) midData).step.isSome ∧
    ((handleMessage (Session.mk (some Step.team) midData) (some "/cancel") cUser "t" false).sess
        = emptySession ∧
     (handleMessage (Session.mk (some Step.team) midData) (some "/cancel") cUser "t" false).sent
        = [t_cancelled (sessLang (Session.mk (some Step.team) midData))] ∧
     (handleMessage (Session.mk (some Step.team) midData) (some "/cancel") cUser "t"
        false).appended = none ∧
     (handleMessage (handleMessage (Session.mk (some Step.team) midData) (some "/cancel") cUser
          "t" false).sess (some "/start") cUser "t" false).sess
        = Session.mk (some .lang) emptyData ∧
     (handleMessage (handleMessage (Session.mk (some Step.team) midData) (some "/cancel") cUser
          "t" false).sess (some "/start") cUser "t" false).sess.data = emptyData) :=
  ⟨by decide, cancel_clears_then_start_fresh (Session.mk (some Step.team) midData) cUser "t"
    false (by decide)⟩

/-- C2 counterexample: at the team step (a single-choice step), the invalid
text `"hello"` leaves the session unchanged but NO message is sent — in
particular the step's prompt is not re-emitted as the claim states. -/
theorem invalid_choice_no_reprompt_cx :
    (handleMessage (Session.mk (some Step.team) midData) (some "hello") cUser "t" false).sess
      = Session.mk (some Step.team) midData ∧
    (handleMessage (Session.mk (some Step.team) midData) (some "hello") cUser "t" false).sent
      = [] ∧
    (handleMessage (Session.mk (some Step.team) midData) (some "hello") cUser "t" false).sent
      ≠ [t_q_team .ru] := by
  decide

/-- C2 (amended): at every single-choice step, a non-command text that is not
one of the step's option labels (of either language) matches no registered
handler: the session (step and answers) is unchanged and no message at all
is sent — the update is silently dropped rather than re-prompted. -/
theorem invalid_choice_noop (sess : Session) (st : Step) (txt : String)
    (ls : List String) (g : SessionData → Option String) (next : Step)
    (user : TgUser) (ts : String) (fail : Bool)
    (hstep : sess.step = some st) (hinfo : choiceInfo st = some (ls, g, next))
    (hmem : txt ∉ ls)
    (h1 : isCmd (some txt) "start" = false) (h2 : isCmd (some txt) "cancel" = false)
    (h3 : isCmd (some txt) "help" = false) :
    handleMessage sess (some txt) user ts fail = noopEffect sess := by
  cases st <;>
    simp_all [handleMessage, choiceInfo, q_team, q_leads_week, q_crm, q_booking, q_docs,
      q_agg_int, q_monet, choiceStep]

/-- C2 amended witness: instantiation at the team step with text `"hello"`. -/
theorem invalid_choice_noop_witness :
    handleMessage (Session.mk (some Step.team) midData) (some "hello") cUser "t" false
      = noopEffect (Session.mk (some Step.team) midData) :=
  invalid_choice_noop (Session.mk (some Step.team) midData) Step.team "hello"
    (opts .TEAM_SIZES .ru ++ opts .TEAM_SIZES .uz) (fun d => d.team_size) Step.leads_from
    cUser "t" false rfl rfl (by decide) (by decide) (by decide) (by decide)

/-- C4 counterexample: at the booking step with session language `ru`, the
label `"Bor, sayt orqali"` exists only in the Uzbek option list, yet the
handler accepts it — it is stored verbatim and the session advances —
contradicting the claim that only the current language's labels are
accepted. -/
theorem choice_cross_language_cx :
    sessLang (Session.mk (some Step.booking) midData) = .ru ∧
    "Bor, sayt orqali" ∉ opts .ONLINE_BOOKING .ru ∧
    (handleMessage (Session.mk (some Step.booking) midData) (some "Bor, sayt orqali") cUser "t"
      false).sess.step = some Step.docs ∧
    (handleMessage (Session.mk (some Step.booking) midData) (some "Bor, sayt orqali") cUser "t"
      false).sess.data.online_booking = some "Bor, sayt orqali" := by
  decide

/-- C4 (amended): at every single-choice step a non-command text is accepted
— stored verbatim and the session advanced to the successor step — exactly
when it matches (case-sensitively) one of the option labels of EITHER
supported language (the filters check the union of both lists); any other
text leaves the session unchanged with nothing sent. -/
theorem choice_accept_iff_union (sess : Session) (st : Step) (txt : String)
    (ls : List String) (g : SessionData → Option String) (next : Step)
    (user : TgUser) (ts : String) (fail : Bool)
    (hstep : sess.step = some st) (hinfo : choiceInfo st = some (ls, g, next))
    (h1 : isCmd (some txt) "start" = false) (h2 : isCmd (some txt) "cancel" = false)
    (h3 : isCmd (some txt) "help" = false) :
    (txt ∈ ls →
      (handleMessage sess (some txt) user ts fail).sess.step = some next ∧
      g (handleMessage sess (some txt) user ts fail).sess.data = some txt) ∧
    (txt ∉ ls → handleMessage sess (some txt) user ts fail = noopEffect sess) := by
  by_cases hin : txt ∈ ls
  · cases st <;>
      simp_all [handleMessage, choiceInfo, q_team, q_leads_week, q_crm, q_booking, q_docs,
        q_agg_int, q_monet, choiceStep] <;>
      (obtain ⟨hls, hg, hn⟩ := hinfo; subst hg; simp)
  · cases st <;>
      simp_all [handleMessage, choiceInfo, q_team, q_leads_week, q_crm, q_booking, q_docs,
        q_agg_int, q_monet, choiceStep]

/-- C4 amended witness: instantiation at the booking step with the Russian
label and with membership facts discharged by computation. -/
theorem choice_accept_iff_union_witness :
    ("Только вручную" ∈ opts .ONLINE_BOOKING .ru ++ opts .ONLINE_BOOKING .uz →
      (handleMessage (Session.mk (some Step.booking) midData) (some "Только вручную") cUser "t"
        false).sess.step = some Step.docs ∧
      (handleMessage (Session.mk (some Step.booking) midData) (some "Только вручную") cUser "t"
        false).sess.data.online_booking = some "Только вручную") ∧
    ("Только вручную" ∉ opts .ONLINE_BOOKING .ru ++ opts .ONLINE_BOOKING .uz →
      handleMessage (Session.mk (some Step.booking) midData) (some "Только вручную") cUser "t"
        false = noopEffect (Session.mk (some Step.booking) midData)) :=
  choice_accept_iff_union (Session.mk (some Step.booking) midData) Step.booking
    "Только вручную" (opts .ONLINE_BOOKING .ru ++ opts .ONLINE_BOOKING .uz)
    (fun d => d.online_booking) Step.docs cUser "t" false rfl rfl
    (by decide) (by decide) (by decide)

/-- C5 counterexample: at the company step (free text), the whitespace-only
text `" "` is empty after trimming, yet it is NOT rejected: the handler
stores the empty string and advances the session to the city step,
contradicting the claimed re-prompt with no state change. -/
theorem free_text_blank_advances_cx :
    pyStrip " " = "" ∧
    (handleMessage (Session.mk (some Step.company) midData) (some " ") cUser "t"
      false).sess.step = some Step.city ∧
    (handleMessage (Session.mk (some Step.company) midData) (some " ") cUser "t"
      false).sess.data.company_name = some "" := by
  decide

/-- C5 (amended): at every free-text step, a present non-command text that is
not empty and not a cancel word is stored stripped — even when stripping
leaves the empty string — and the session advances to the successor step;
an absent text, the empty text, or a cancel word instead clears the whole
session and sends the cancellation message (there is no re-prompt path). -/
theorem free_text_behavior (sess : Session) (st : Step) (text : Option String)
    (g : SessionData → Option String) (next : Step)
    (user : TgUser) (ts : String) (fail : Bool)
    (hstep : sess.step = some st) (hinfo : freeInfo st = some (g, next))
    (h1 : isCmd text "start" = false) (h2 : isCmd text "cancel" = false)
    (h3 : isCmd text "help" = false) :
    (isCancelText text = false →
      (handleMessage sess text user ts fail).sess.step = some next ∧
      g (handleMessage sess text user ts fail).sess.data = some (pyStrip (text.getD ""))) ∧
    (isCancelText text = true →
      (handleMessage sess text user ts fail).sess = emptySession ∧
      (handleMessage sess text user ts fail).sent = [t_cancelled (sessLang sess)]) := by
  by_cases hc : isCancelText text
  · cases st <;>
      simp_all [handleMessage, freeInfo, q_company, q_city, q_years, q_ins1, q_ins2, q_ins3,
        freeStep]
  · cases st <;>
      simp_all [handleMessage, freeInfo, q_company, q_city, q_years, q_ins1, q_ins2, q_ins3,
        freeStep] <;>
      (obtain ⟨hg, hn⟩ := hinfo; subst hg; simp)

/-- C5 amended witness: instantiation at the company step with an ordinary
company name. -/
theorem free_text_behavior_witness :
    (isCancelText (some " TripleA Travel ") = false →
      (handleMessage (Session.mk (some Step.company) midData) (some " TripleA Travel ") cUser
        "t" false).sess.step = some Step.city ∧
      (handleMessage (Session.mk (some Step.company) midData) (some " TripleA Travel ") cUser
        "t" false).sess.data.company_name
          = some (pyStrip ((some " TripleA Travel ").getD ""))) ∧
    (isCancelText (some " TripleA Travel ") = true →
      (handleMessage (Session.mk (some Step.company) midData) (some " TripleA Travel ") cUser
        "t" false).sess = emptySession ∧
      (handleMessage (Session.mk (some Step.company) midData) (some " TripleA Travel ") cUser
        "t" false).sent = [t_cancelled (sessLang (Session.mk (some Step.company) midData))]) :=
  free_text_behavior (Session.mk (some Step.company) midData) Step.company
    (some " TripleA Travel ") (fun d => d.company_name) Step.city cUser "t" false rfl rfl
    (by decide) (by decide) (by decide)
